import Mathlib

/-!
Verification of the ad-click fraud detection pipeline.

Shallow embedding of the click-scoring and session-aggregation core:
`FeatureBuilder.build` (src/feature_builder.py), `get_risk_level` and
`predict` (src/main.py), and `log_click` / `update_session_summary`
(src/database.py).  Python floats are modelled as exact rationals; the
SQLite tables are modelled as lists of rows; a raised exception or an
HTTP error response is modelled with `Option` / `Except`.
-/

namespace FraudDetection

/-- Request payload, from `ClickData` in src/main.py. -/
structure ClickData where
  session_id : String
  clicks_per_session : Int
  time_gap_seconds : ℚ
  session_duration_minutes : ℚ
  ad_id : Int
  user_agent_category : Int
deriving DecidableEq

/-- One row of the `advertisers` table (the columns the pipeline reads). -/
structure Advertiser where
  id : Int
  name : String
deriving DecidableEq

/-- One row of the `ads` table (the columns the pipeline reads). -/
structure Ad where
  id : Int
  advertiser_id : Int
  title : String
deriving DecidableEq

/-- The feature row built by `FeatureBuilder.build` in src/feature_builder.py. -/
structure FeatureRow where
  device_type : String
  browser : String
  operating_system : String
  ad_position : String
  device_ip_reputation : String
  click_duration : ℚ
  scroll_depth : ℚ
  mouse_movement : ℚ
  keystrokes_detected : ℚ
  click_frequency : ℚ
  time_since_last_click : ℚ
  VPN_usage : Int
  proxy_usage : Int
  bot_likelihood_score : ℚ
deriving DecidableEq

/-- One row of the `click_logs` audit table (src/database.py), without the
wall-clock `clicked_at` column. -/
structure ClickLog where
  ad_id : Int
  advertiser_id : Int
  session_id : String
  clicks_per_session : Int
  time_gap_seconds : ℚ
  session_duration_minutes : ℚ
  user_agent_category : Int
  is_fraud : Bool
  fraud_probability : ℚ
  risk_level : String
  model_used : String
deriving DecidableEq

/-- One row of the `session_summary` table (src/database.py), without the
wall-clock `last_updated` column. -/
structure SessionSummary where
  session_id : String
  ad_id : Int
  advertiser_id : Int
  ad_title : String
  clicks_per_session : Int
  session_duration_minutes : ℚ
  min_gap : ℚ
  max_gap : ℚ
  is_fraud : Bool
  fraud_probability : ℚ
  risk_level : String
  model_used : String
deriving DecidableEq

/-- The per-click arguments of `update_session_summary` that vary from click
to click within one session: the scored click. -/
structure ScoredClick where
  clicks_per_session : Int
  session_duration_minutes : ℚ
  time_gap_seconds : ℚ
  is_fraud : Bool
  fraud_probability : ℚ
  risk_level : String
  model_used : String
deriving DecidableEq

/-- The mutable SQLite database state touched by the scoring pipeline. -/
structure DBState where
  advertisers : List Advertiser
  ads : List Ad
  click_logs : List ClickLog
  session_summary : List SessionSummary
deriving DecidableEq

/-- From src/feature_builder.py, `FeatureBuilder.build`: derives the feature
row from a click, with the additive `bot_score` heuristic clamped at 1. -/
def FeatureBuilder.build (click : ClickData) : FeatureRow :=
  let click_frequency : ℚ :=
    (click.clicks_per_session : ℚ) / max click.session_duration_minutes 0.1
  let bot_score0 : ℚ := 0
  let bot_score1 := if click.clicks_per_session > 10 then bot_score0 + 0.3 else bot_score0
  let bot_score2 := if click.time_gap_seconds < 1 then bot_score1 + 0.4 else bot_score1
  let bot_score3 := if click_frequency > 8 then bot_score2 + 0.3 else bot_score2
  let bot_score := min bot_score3 1
  let device_type :=
    if click.user_agent_category = 1 then "Desktop"
    else if click.user_agent_category = 2 then "Mobile"
    else "Tablet"
  { device_type := device_type
    browser := "Chrome"
    operating_system := "Windows"
    ad_position := "Top"
    device_ip_reputation := if bot_score > 0.6 then "Bad" else "Good"
    click_duration := click.time_gap_seconds
    scroll_depth := min ((click.clicks_per_session : ℚ) * 10) 100
    mouse_movement := min ((click.clicks_per_session : ℚ) * 40) 400
    keystrokes_detected := if bot_score > 0.6 then 0 else 2
    click_frequency := click_frequency
    time_since_last_click := click.time_gap_seconds
    VPN_usage := if bot_score > 0.7 then 1 else 0
    proxy_usage := if bot_score > 0.7 then 1 else 0
    bot_likelihood_score := bot_score }

/-- From src/main.py, `get_risk_level`. -/
def get_risk_level (prob : ℚ) : String :=
  if prob < 0.1 then "Low"
  else if prob < 0.8 then "Medium"
  else "High"

/-- From src/main.py, the line `is_fraud = fraud_prob >= 0.5` in `predict`. -/
def fraudVerdict (prob : ℚ) : Bool := prob ≥ 0.5

/-- From src/main.py, the line `fraud_prob = max(fraud_prob, 0.001)` in
`predict`: the raw classifier output clamped away from zero. -/
def clampProb (raw : ℚ) : ℚ := max raw 0.001

/-- Lookup `SELECT ... FROM ads WHERE id = ?` followed by `fetchone`. -/
def findAd (ads : List Ad) (ad_id : Int) : Option Ad :=
  ads.find? (fun a => a.id == ad_id)

/-- From src/database.py, `get_ad_with_advertiser`: the ad row joined with
its advertiser; the inner join yields no row when the advertiser is absent. -/
def get_ad_with_advertiser (ads : List Ad) (advertisers : List Advertiser)
    (ad_id : Int) : Option Ad :=
  match findAd ads ad_id with
  | none => none
  | some a => if advertisers.any (fun adv => adv.id == a.advertiser_id) then some a else none

/-- From src/database.py, the `if existing:` branch of
`update_session_summary`: min/max gap folding, sticky fraud flag, and
unconditional overwrite of the latest-score columns. -/
def update_existing_summary (existing : SessionSummary) (clicks_per_session : Int)
    (session_duration_minutes time_gap_seconds : ℚ) (is_fraud : Bool)
    (fraud_probability : ℚ) (risk_level model_used : String) : SessionSummary :=
  let new_min_gap :=
    if time_gap_seconds > 0 then min existing.min_gap time_gap_seconds else existing.min_gap
  let new_max_gap := max existing.max_gap time_gap_seconds
  let final_is_fraud := existing.is_fraud || is_fraud
  let final_fraud_prob := if final_is_fraud then fraud_probability else fraud_probability
  let final_risk_level := if final_is_fraud then risk_level else risk_level
  { existing with
      clicks_per_session := clicks_per_session
      session_duration_minutes := session_duration_minutes
      min_gap := new_min_gap
      max_gap := new_max_gap
      is_fraud := final_is_fraud
      fraud_probability := final_fraud_prob
      risk_level := final_risk_level
      model_used := model_used }

/-- From src/database.py, the `else:` branch of `update_session_summary`:
a fresh summary row with `min_gap = 999999` and `max_gap = 0`; the click's
own gap is not consulted. -/
def create_summary (session_id : String) (ad_id advertiser_id : Int)
    (ad_title : String) (clicks_per_session : Int) (session_duration_minutes : ℚ)
    (is_fraud : Bool) (fraud_probability : ℚ)
    (risk_level model_used : String) : SessionSummary :=
  { session_id := session_id
    ad_id := ad_id
    advertiser_id := advertiser_id
    ad_title := ad_title
    clicks_per_session := clicks_per_session
    session_duration_minutes := session_duration_minutes
    min_gap := 999999
    max_gap := 0
    is_fraud := is_fraud
    fraud_probability := fraud_probability
    risk_level := risk_level
    model_used := model_used }

/-- From src/database.py, `update_session_summary`.  `none` models the
`TypeError` raised by `cursor.fetchone()[0]` when the ad id has no row. -/
def update_session_summary (ads : List Ad) (summaries : List SessionSummary)
    (session_id : String) (ad_id advertiser_id clicks_per_session : Int)
    (session_duration_minutes time_gap_seconds : ℚ) (is_fraud : Bool)
    (fraud_probability : ℚ) (risk_level model_used : String) :
    Option (List SessionSummary) :=
  match findAd ads ad_id with
  | none => none
  | some ad =>
    match summaries.find? (fun s => s.session_id == session_id) with
    | some _ =>
        some (summaries.map (fun s =>
          if s.session_id == session_id then
            update_existing_summary s clicks_per_session session_duration_minutes
              time_gap_seconds is_fraud fraud_probability risk_level model_used
          else s))
    | none =>
        some (summaries ++ [create_summary session_id ad_id advertiser_id ad.title
          clicks_per_session session_duration_minutes is_fraud fraud_probability
          risk_level model_used])

/-- From src/database.py, `log_click`: append the audit row and update the
session summary in one transaction; `none` models the aborted (never
committed) transaction when `update_session_summary` raises. -/
def log_click (st : DBState) (ad_id advertiser_id : Int) (session_id : String)
    (clicks_per_session : Int) (time_gap_seconds session_duration_minutes : ℚ)
    (user_agent_category : Int) (is_fraud : Bool) (fraud_probability : ℚ)
    (risk_level model_used : String) : Option DBState :=
  let row : ClickLog :=
    { ad_id := ad_id
      advertiser_id := advertiser_id
      session_id := session_id
      clicks_per_session := clicks_per_session
      time_gap_seconds := time_gap_seconds
      session_duration_minutes := session_duration_minutes
      user_agent_category := user_agent_category
      is_fraud := is_fraud
      fraud_probability := fraud_probability
      risk_level := risk_level
      model_used := model_used }
  match update_session_summary st.ads st.session_summary session_id ad_id advertiser_id
      clicks_per_session session_duration_minutes time_gap_seconds is_fraud
      fraud_probability risk_level model_used with
  | none => none
  | some summaries =>
      some { st with click_logs := st.click_logs ++ [row], session_summary := summaries }

/-- Errors surfaced by the `/predict` endpoint: HTTP 503, HTTP 404, and the
uncaught `TypeError` escaping `update_session_summary`. -/
inductive PredictError
  | modelUnavailable
  | adNotFound
  | internalError
deriving DecidableEq

/-- Response body of `/predict`, from `PredictionResponse` in src/main.py. -/
structure PredictionResponse where
  is_fraud : Bool
  fraud_probability : ℚ
  risk_level : String
  model_used : String
deriving DecidableEq

/-- From src/main.py, `predict`: the scoring pipeline.  The loaded classifier
(model plus scaler) is an abstract function from the feature row to a raw
probability, `none` when not loaded.  Returns the database state after the
call together with the response or the error; every error leaves the state
untouched. -/
def predict (classifier : Option (FeatureRow → ℚ)) (model_name : String)
    (st : DBState) (click : ClickData) :
    DBState × Except PredictError PredictionResponse :=
  match classifier with
  | none => (st, Except.error PredictError.modelUnavailable)
  | some clf =>
    match get_ad_with_advertiser st.ads st.advertisers click.ad_id with
    | none => (st, Except.error PredictError.adNotFound)
    | some ad_info =>
      let X := FeatureBuilder.build click
      let fraud_prob := clampProb (clf X)
      let is_fraud := fraudVerdict fraud_prob
      let risk := get_risk_level fraud_prob
      match log_click st click.ad_id ad_info.advertiser_id click.session_id
          click.clicks_per_session click.time_gap_seconds
          click.session_duration_minutes click.user_agent_category
          is_fraud fraud_prob risk model_name with
      | none => (st, Except.error PredictError.internalError)
      | some st2 =>
          (st2, Except.ok
            { is_fraud := is_fraud
              fraud_probability := fraud_prob
              risk_level := risk
              model_used := model_name })

/-- One session's summary updates, with the per-click scored arguments
bundled in a `ScoredClick`: the `if existing:` branch of
`update_session_summary` applied to one stored row. -/
def applyClick (s : SessionSummary) (c : ScoredClick) : SessionSummary :=
  update_existing_summary s c.clicks_per_session c.session_duration_minutes
    c.time_gap_seconds c.is_fraud c.fraud_probability c.risk_level c.model_used

/-- The summary row created by the first click of a session. -/
def createFromClick (session_id : String) (ad_id advertiser_id : Int)
    (ad_title : String) (c : ScoredClick) : SessionSummary :=
  create_summary session_id ad_id advertiser_id ad_title c.clicks_per_session
    c.session_duration_minutes c.is_fraud c.fraud_probability c.risk_level c.model_used

/-- The stored summary of one session after its creating first click and a
list of subsequent clicks, each applied by `update_session_summary`. -/
def runSession (session_id : String) (ad_id advertiser_id : Int)
    (ad_title : String) (first : ScoredClick) (rest : List ScoredClick) :
    SessionSummary :=
  rest.foldl applyClick (createFromClick session_id ad_id advertiser_id ad_title first)

/-- Stated from the spec sentence behind C1: the minimum of only the strictly
positive gaps seen so far, or the sentinel when none has been seen. -/
def specMinGap (gaps : List ℚ) : ℚ :=
  match gaps.filter (fun g => decide (0 < g)) with
  | [] => 999999
  | g :: gs => gs.foldl min g

/-- Stated from the spec sentence behind C1: the maximum of all gaps seen so
far, the first click's gap included. -/
def specMaxGap (gaps : List ℚ) : ℚ :=
  match gaps with
  | [] => 0
  | g :: gs => gs.foldl max g

/-- Amended C1 reading: minimum of the sentinel together with the strictly
positive gaps of the clicks after the first. -/
def specMinGapAmended (gaps : List ℚ) : ℚ :=
  (gaps.filter (fun g => decide (0 < g))).foldl min 999999

/-- Amended C1 reading: maximum of 0 together with the gaps of the clicks
after the first. -/
def specMaxGapAmended (gaps : List ℚ) : ℚ :=
  gaps.foldl max 0

/-! ## Projection lemmas for one summary update -/

lemma applyClick_min_gap (s : SessionSummary) (c : ScoredClick) :
    (applyClick s c).min_gap
      = if 0 < c.time_gap_seconds then min s.min_gap c.time_gap_seconds else s.min_gap := rfl

lemma applyClick_max_gap (s : SessionSummary) (c : ScoredClick) :
    (applyClick s c).max_gap = max s.max_gap c.time_gap_seconds := rfl

lemma applyClick_is_fraud (s : SessionSummary) (c : ScoredClick) :
    (applyClick s c).is_fraud = (s.is_fraud || c.is_fraud) := rfl

lemma applyClick_fraud_probability (s : SessionSummary) (c : ScoredClick) :
    (applyClick s c).fraud_probability = c.fraud_probability := by
  simp [applyClick, update_existing_summary]

lemma applyClick_risk_level (s : SessionSummary) (c : ScoredClick) :
    (applyClick s c).risk_level = c.risk_level := by
  simp [applyClick, update_existing_summary]

lemma applyClick_model_used (s : SessionSummary) (c : ScoredClick) :
    (applyClick s c).model_used = c.model_used := rfl

/-! ## Fold characterizations of a whole session -/

lemma foldl_applyClick_min_gap (rest : List ScoredClick) (s : SessionSummary) :
    (rest.foldl applyClick s).min_gap
      = rest.foldl
          (fun m c => if 0 < c.time_gap_seconds then min m c.time_gap_seconds else m)
          s.min_gap := by
  induction rest generalizing s with
  | nil => rfl
  | cons c cs ih =>
      rw [List.foldl_cons, List.foldl_cons, ih, applyClick_min_gap]

lemma foldl_applyClick_max_gap (rest : List ScoredClick) (s : SessionSummary) :
    (rest.foldl applyClick s).max_gap
      = rest.foldl (fun m c => max m c.time_gap_seconds) s.max_gap := by
  induction rest generalizing s with
  | nil => rfl
  | cons c cs ih =>
      rw [List.foldl_cons, List.foldl_cons, ih, applyClick_max_gap]

lemma foldl_applyClick_is_fraud (rest : List ScoredClick) (s : SessionSummary) :
    (rest.foldl applyClick s).is_fraud
      = rest.foldl (fun acc c => acc || c.is_fraud) s.is_fraud := by
  induction rest generalizing s with
  | nil => rfl
  | cons c cs ih =>
      rw [List.foldl_cons, List.foldl_cons, ih, applyClick_is_fraud]

lemma foldl_min_filter (l : List ℚ) (a : ℚ) :
    (l.filter (fun g => decide (0 < g))).foldl min a
      = l.foldl (fun m g => if 0 < g then min m g else m) a := by
  induction l generalizing a with
  | nil => rfl
  | cons g gs ih =>
      by_cases h : 0 < g
      · simp [List.filter_cons, h, ih]
      · simp [List.filter_cons, h, ih]

lemma foldl_gapstep_le (l : List ScoredClick) (a : ℚ) :
    l.foldl (fun m c => if 0 < c.time_gap_seconds then min m c.time_gap_seconds else m) a
      ≤ a := by
  induction l generalizing a with
  | nil => exact le_rfl
  | cons c cs ih =>
      rw [List.foldl_cons]
      refine le_trans (ih _) ?_
      split_ifs with h
      · exact min_le_left _ _
      · exact le_rfl

lemma foldl_or_seed (l : List ScoredClick) (b : Bool) :
    l.foldl (fun acc c => acc || c.is_fraud) b
      = (b || l.foldl (fun acc c => acc || c.is_fraud) false) := by
  induction l generalizing b with
  | nil => simp
  | cons c cs ih =>
      rw [List.foldl_cons, List.foldl_cons, ih (b || c.is_fraud), ih (false || c.is_fraud)]
      simp [Bool.or_assoc]

/-! ## Claims -/

/-- Concrete single-click session whose creating click has the positive gap 5:
the input refuting claim C1 as stated. -/
def c1FirstClick : ScoredClick :=
  { clicks_per_session := 1
    session_duration_minutes := 1/2
    time_gap_seconds := 5
    is_fraud := false
    fraud_probability := 1/1000
    risk_level := "Low"
    model_used := "ANN Click Fraud Detection Model" }

/-- Claim C1, as stated, is false: on a session whose creating first click
carries the strictly positive gap 5, the stored summary keeps
`min_gap = 999999` and `max_gap = 0`, while the claim demands the first
click's gap to be folded in (`min_gap = 5`, `max_gap = 5`).  The insert
branch of `update_session_summary` never consults the click's gap. -/
theorem C1_first_click_gap_counterexample :
    ¬ ((runSession "s1" 1 1 "Latest Smartphone" c1FirstClick []).min_gap
          = specMinGap ([c1FirstClick].map ScoredClick.time_gap_seconds)
       ∧ (runSession "s1" 1 1 "Latest Smartphone" c1FirstClick []).max_gap
          = specMaxGap ([c1FirstClick].map ScoredClick.time_gap_seconds)) := by
  decide

/-- Claim C1 (amended): for every sequence of clicks applied to one session,
the stored `min_gap` equals the minimum of the sentinel 999999 together with
the strictly positive gaps of the clicks after the creating first click, and
the stored `max_gap` equals the maximum of 0 together with the gaps of the
clicks after the first; the first click's gap is ignored entirely. -/
theorem C1_gap_tracking_amended (session_id : String) (ad_id advertiser_id : Int)
    (ad_title : String) (first : ScoredClick) (rest : List ScoredClick) :
    (runSession session_id ad_id advertiser_id ad_title first rest).min_gap
        = specMinGapAmended (rest.map ScoredClick.time_gap_seconds)
      ∧ (runSession session_id ad_id advertiser_id ad_title first rest).max_gap
        = specMaxGapAmended (rest.map ScoredClick.time_gap_seconds) := by
  constructor
  · rw [runSession, foldl_applyClick_min_gap, specMinGapAmended, foldl_min_filter,
      List.foldl_map]
    rfl
  · rw [runSession, foldl_applyClick_max_gap, specMaxGapAmended, List.foldl_map]
    rfl

/-- Claim C2: the stored `is_fraud` flag of a session summary is the logical
OR of the verdicts of all clicks applied so far (first conjunct), and it is
monotone under further clicks — once true it remains true regardless of later
verdicts, since `b = true` forces `b || x = true` (second conjunct). -/
theorem C2_sticky_fraud_or (session_id : String) (ad_id advertiser_id : Int)
    (ad_title : String) (first : ScoredClick) (rest rest2 : List ScoredClick) :
    (runSession session_id ad_id advertiser_id ad_title first rest).is_fraud
        = rest.foldl (fun acc c => acc || c.is_fraud) first.is_fraud
      ∧ (runSession session_id ad_id advertiser_id ad_title first (rest ++ rest2)).is_fraud
        = ((runSession session_id ad_id advertiser_id ad_title first rest).is_fraud
            || rest2.foldl (fun acc c => acc || c.is_fraud) false) := by
  constructor
  · rw [runSession, foldl_applyClick_is_fraud]
    rfl
  · rw [runSession, runSession, List.foldl_append, foldl_applyClick_is_fraud,
      foldl_applyClick_is_fraud, foldl_or_seed]

/-- Claim C3: the risk policy yields `is_fraud = (p >= 0.5)` and the tier
thresholds Low below 0.1, Medium on [0.1, 0.8), High from 0.8 on; in
particular p = 0.5 gives a fraudulent verdict with Medium tier and p = 0.05 a
genuine verdict with Low tier — the two thresholds are independent. -/
theorem C3_risk_policy (p : ℚ) :
    (p < 0.1 → get_risk_level p = "Low")
      ∧ (0.1 ≤ p → p < 0.8 → get_risk_level p = "Medium")
      ∧ (0.8 ≤ p → get_risk_level p = "High")
      ∧ fraudVerdict p = decide (p ≥ 0.5)
      ∧ (fraudVerdict 0.5 = true ∧ get_risk_level 0.5 = "Medium")
      ∧ (fraudVerdict 0.05 = false ∧ get_risk_level 0.05 = "Low") := by
  refine ⟨?_, ?_, ?_, rfl, ⟨?_, ?_⟩, ⟨?_, ?_⟩⟩
  · intro h
    simp [get_risk_level, h]
  · intro h1 h2
    rw [get_risk_level, if_neg (not_lt.mpr h1), if_pos h2]
  · intro h
    rw [get_risk_level, if_neg (not_lt.mpr (le_trans (by norm_num) h)),
      if_neg (not_lt.mpr h)]
  · simp [fraudVerdict]
  · rw [get_risk_level]
    norm_num
  · simp [fraudVerdict]
    norm_num
  · rw [get_risk_level]
    norm_num

/-- Witness for C3 at the concrete probabilities 0.05, 0.5, 0.9. -/
theorem C3_risk_policy_witness :
    get_risk_level 0.05 = "Low" ∧ get_risk_level 0.5 = "Medium"
      ∧ get_risk_level 0.9 = "High" :=
  ⟨(C3_risk_policy 0.05).1 (by norm_num),
   (C3_risk_policy 0.5).2.1 (by norm_num) (by norm_num),
   (C3_risk_policy 0.9).2.2.1 (by norm_num)⟩

/-- Claim C4: for every raw model output in [0, 1] the scored probability is
`max(raw, 0.001)`, hence strictly positive, at most 1, and never zero. -/
theorem C4_probability_floor (r : ℚ) (h0 : 0 ≤ r) (h1 : r ≤ 1) :
    clampProb r = max r 0.001 ∧ 0 < clampProb r ∧ clampProb r ≤ 1 ∧ clampProb r ≠ 0 := by
  refine ⟨rfl, ?_, ?_, ?_⟩
  · exact lt_of_lt_of_le (by norm_num) (le_max_right r 0.001)
  · exact max_le h1 (by norm_num)
  · exact ne_of_gt (lt_of_lt_of_le (by norm_num) (le_max_right r 0.001))

/-- Witness for C4 at the raw output 0, the extreme case the floor is for. -/
theorem C4_probability_floor_witness :
    clampProb 0 = max 0 0.001 ∧ 0 < clampProb 0 ∧ clampProb 0 ≤ 1 ∧ clampProb 0 ≠ 0 :=
  C4_probability_floor 0 (by norm_num) (by norm_num)

/-- Claim C5: feature derivation computes
`click_frequency = clicks_per_session / max(session_duration_minutes, 0.1)`
and `bot_score` as the clamped sum of the three fixed-weight signals
(+0.3 for more than 10 clicks, +0.4 for a sub-second gap, +0.3 for a click
frequency above 8), capped at 1; being a plain function of the click it is
pure and deterministic. -/
theorem C5_feature_derivation (click : ClickData) :
    (FeatureBuilder.build click).click_frequency
        = (click.clicks_per_session : ℚ) / max click.session_duration_minutes 0.1
      ∧ (FeatureBuilder.build click).bot_likelihood_score
        = min ((if 10 < click.clicks_per_session then (0.3 : ℚ) else 0)
              + (if click.time_gap_seconds < 1 then (0.4 : ℚ) else 0)
              + (if 8 < (click.clicks_per_session : ℚ) / max click.session_duration_minutes 0.1
                  then (0.3 : ℚ) else 0)) 1 := by
  constructor
  · rfl
  · simp only [FeatureBuilder.build]
    split_ifs <;> norm_num

/-- Claim C6: `predict` fails with `modelUnavailable` when the classifier is
not loaded (checked first, before the ad lookup and feature derivation) and
with `adNotFound` when the ad lookup yields no row; in both error cases the
returned database state is exactly the state before the call, so no ClickLog
row is appended and no SessionSummary is created or modified. -/
theorem C6_error_isolation (model_name : String) (st : DBState) (click : ClickData) :
    predict none model_name st click = (st, Except.error PredictError.modelUnavailable)
      ∧ (∀ clf : FeatureRow → ℚ,
          get_ad_with_advertiser st.ads st.advertisers click.ad_id = none →
          predict (some clf) model_name st click
            = (st, Except.error PredictError.adNotFound)) := by
  refine ⟨rfl, ?_⟩
  intro clf h
  simp [predict, h]

/-- Empty database used to witness C6. -/
def c6Db : DBState :=
  { advertisers := [], ads := [], click_logs := [], session_summary := [] }

/-- Concrete click used to witness C6. -/
def c6Click : ClickData :=
  { session_id := "s1"
    clicks_per_session := 1
    time_gap_seconds := 0
    session_duration_minutes := 1/2
    ad_id := 1
    user_agent_category := 1 }

/-- Witness for C6: on an empty database, a missing model and a missing ad
each produce the corresponding error and leave the state untouched. -/
theorem C6_error_isolation_witness :
    predict none "ANN Click Fraud Detection Model" c6Db c6Click
        = (c6Db, Except.error PredictError.modelUnavailable)
      ∧ predict (some (fun _ => 9/10)) "ANN Click Fraud Detection Model" c6Db c6Click
        = (c6Db, Except.error PredictError.adNotFound) :=
  ⟨(C6_error_isolation "ANN Click Fraud Detection Model" c6Db c6Click).1,
   (C6_error_isolation "ANN Click Fraud Detection Model" c6Db c6Click).2
     (fun _ => 9/10) rfl⟩

/-- Claim C7: after every summary update on an existing session, the stored
`fraud_probability`, `risk_level` and `model_used` equal the values of the
most recent click, whatever the sticky fraud flag and the earlier history. -/
theorem C7_latest_score_overwrite (session_id : String) (ad_id advertiser_id : Int)
    (ad_title : String) (first : ScoredClick) (rest : List ScoredClick)
    (c : ScoredClick) :
    (runSession session_id ad_id advertiser_id ad_title first (rest ++ [c])).fraud_probability
        = c.fraud_probability
      ∧ (runSession session_id ad_id advertiser_id ad_title first (rest ++ [c])).risk_level
        = c.risk_level
      ∧ (runSession session_id ad_id advertiser_id ad_title first (rest ++ [c])).model_used
        = c.model_used := by
  rw [runSession, List.foldl_append]
  exact ⟨applyClick_fraud_probability _ _, applyClick_risk_level _ _,
    applyClick_model_used _ _⟩

/-- Claim C8: replaying the update branch of `update_session_summary` with the
exact same click arguments leaves the stored summary row unchanged — all of
`min_gap`, `max_gap`, `is_fraud`, `fraud_probability`, `risk_level`,
`clicks_per_session`, `session_duration_minutes` and `model_used` (the whole
modelled row) are identical after the repeat. -/
theorem C8_idempotent_replay (s : SessionSummary) (clicks_per_session : Int)
    (session_duration_minutes time_gap_seconds : ℚ) (is_fraud : Bool)
    (fraud_probability : ℚ) (risk_level model_used : String) :
    update_existing_summary
        (update_existing_summary s clicks_per_session session_duration_minutes
          time_gap_seconds is_fraud fraud_probability risk_level model_used)
        clicks_per_session session_duration_minutes time_gap_seconds is_fraud
        fraud_probability risk_level model_used
      = update_existing_summary s clicks_per_session session_duration_minutes
          time_gap_seconds is_fraud fraud_probability risk_level model_used := by
  simp only [update_existing_summary]
  split_ifs <;>
    simp_all [SessionSummary.mk.injEq, min_assoc, max_assoc, Bool.or_assoc]

/-- Claim C9: the "infinite" `min_gap` sentinel is the finite number 999999 —
it is the value at creation, every reachable summary keeps `min_gap` at or
below it, and a click with a gap of 999999 or more never changes `min_gap`,
so such a gap is indistinguishable in the stored row from the
no-positive-gap-seen state. -/
theorem C9_sentinel_saturation (session_id : String) (ad_id advertiser_id : Int)
    (ad_title : String) (first : ScoredClick) (rest : List ScoredClick) :
    (createFromClick session_id ad_id advertiser_id ad_title first).min_gap = 999999
      ∧ (runSession session_id ad_id advertiser_id ad_title first rest).min_gap ≤ 999999
      ∧ ∀ c : ScoredClick, 999999 ≤ c.time_gap_seconds →
          (applyClick (runSession session_id ad_id advertiser_id ad_title first rest) c).min_gap
            = (runSession session_id ad_id advertiser_id ad_title first rest).min_gap := by
  have hle : (runSession session_id ad_id advertiser_id ad_title first rest).min_gap
      ≤ 999999 := by
    rw [runSession, foldl_applyClick_min_gap]
    exact foldl_gapstep_le rest _
  refine ⟨rfl, hle, ?_⟩
  intro c hc
  rw [applyClick_min_gap]
  split_ifs with h
  · exact min_eq_left (le_trans hle hc)
  · rfl

/-- First click of the session used to witness C9. -/
def c9FirstClick : ScoredClick :=
  { clicks_per_session := 1
    session_duration_minutes := 1
    time_gap_seconds := 0
    is_fraud := false
    fraud_probability := 1/1000
    risk_level := "Low"
    model_used := "ANN Click Fraud Detection Model" }

/-- Follow-up click with a gap of 1000000 seconds, beyond the sentinel. -/
def c9BigGapClick : ScoredClick :=
  { clicks_per_session := 2
    session_duration_minutes := 1
    time_gap_seconds := 1000000
    is_fraud := false
    fraud_probability := 1/1000
    risk_level := "Low"
    model_used := "ANN Click Fraud Detection Model" }

/-- Witness for C9: a gap of 1000000 seconds leaves the freshly created
summary's `min_gap` unchanged at the sentinel. -/
theorem C9_sentinel_saturation_witness :
    (applyClick (runSession "s1" 1 1 "Latest Smartphone" c9FirstClick []) c9BigGapClick).min_gap
      = (runSession "s1" 1 1 "Latest Smartphone" c9FirstClick []).min_gap :=
  (C9_sentinel_saturation "s1" 1 1 "Latest Smartphone" c9FirstClick []).2.2
    c9BigGapClick (by decide)

/-- Claim C10: `update_session_summary` raises (returns `none`) whenever its
ad-title lookup finds no row, before touching any summary; and within the
pipeline this branch is unreachable — `predict` never surfaces the internal
error, because the earlier `adNotFound` check guarantees the ad row exists. -/
theorem C10_ad_lookup_guard :
    (∀ (ads : List Ad) (summaries : List SessionSummary) (session_id : String)
        (ad_id advertiser_id clicks_per_session : Int)
        (session_duration_minutes time_gap_seconds : ℚ) (is_fraud : Bool)
        (fraud_probability : ℚ) (risk_level model_used : String),
        findAd ads ad_id = none →
        update_session_summary ads summaries session_id ad_id advertiser_id
          clicks_per_session session_duration_minutes time_gap_seconds is_fraud
          fraud_probability risk_level model_used = none)
      ∧ ∀ (classifier : Option (FeatureRow → ℚ)) (model_name : String)
          (st : DBState) (click : ClickData),
          (predict classifier model_name st click).2
            ≠ Except.error PredictError.internalError := by
  constructor
  · intro ads summaries session_id ad_id advertiser_id clicks_per_session
      session_duration_minutes time_gap_seconds is_fraud fraud_probability
      risk_level model_used h
    simp [update_session_summary, h]
  · intro classifier model_name st click
    cases classifier with
    | none => simp [predict]
    | some clf =>
      cases hfind : findAd st.ads click.ad_id with
      | none => simp [predict, get_ad_with_advertiser, hfind]
      | some a =>
        by_cases hadv : st.advertisers.any (fun adv => adv.id == a.advertiser_id)
        · simp only [predict, get_ad_with_advertiser, hfind, if_pos hadv]
          cases hs : st.session_summary.find? (fun s => s.session_id == click.session_id) with
          | none =>
            simp [log_click, update_session_summary, hfind, hs]
          | some s0 =>
            simp [log_click, update_session_summary, hfind, hs]
        · simp [predict, get_ad_with_advertiser, hfind, hadv]

/-- Empty database used to witness C10. -/
def c10Db : DBState :=
  { advertisers := [], ads := [], click_logs := [], session_summary := [] }

/-- Concrete click used to witness C10. -/
def c10Click : ClickData :=
  { session_id := "s1"
    clicks_per_session := 1
    time_gap_seconds := 0
    session_duration_minutes := 1/2
    ad_id := 1
    user_agent_category := 1 }

/-- Witness for C10: with no ads table row for ad 1 the summary update
raises, and a concrete `predict` call does not surface the internal error. -/
theorem C10_ad_lookup_guard_witness :
    update_session_summary [] [] "s1" 1 1 1 1 0 false (1/2) "Medium"
        "ANN Click Fraud Detection Model" = none
      ∧ (predict none "ANN Click Fraud Detection Model" c10Db c10Click).2
          ≠ Except.error PredictError.internalError :=
  ⟨C10_ad_lookup_guard.1 [] [] "s1" 1 1 1 1 0 false (1/2) "Medium"
      "ANN Click Fraud Detection Model" rfl,
   C10_ad_lookup_guard.2 none "ANN Click Fraud Detection Model" c10Db c10Click⟩

end FraudDetection
